import Mathlib

/-!
Shallow embedding of the Flipper desktop connection-tracking state slice:
the reducer of `src/desktop/app/src/reducers/connections.tsx` and the
selectors of the accompanying selector module, together with proofs of the
specified properties.

JavaScript conventions are rendered as follows: `null`/`undefined` become
`Option.none`; JS string-falsiness (`!s` is true for both `null` and the
empty string) is made explicit through `strFalsy`; object/`Set` identity
(`===`) becomes structural equality; the mutable `connected` observable of
a device or client is carried as the boolean value it holds at the moment
the transition runs; JS objects used as string-keyed maps become
association lists whose key order mirrors JS insertion order; `Set<string>`
becomes a duplicate-free list in insertion order; a thrown exception
becomes `Except.error`.
-/

set_option maxHeartbeats 1000000

namespace Flipper

/-- Modelled from the spec: `BaseDevice` (its class is outside this excerpt).
A device is identified by a stable `serial`; it has `title`, `os`,
a `connected` observable boolean, `isArchived`, and `isConnected`.
`connected` carries the value `connected.get()` would return, and
`isConnected` the value of the `isConnected` accessor. -/
structure BaseDevice where
  serial : String
  title : String
  os : String
  connected : Bool
  isConnected : Bool
  isArchived : Bool
deriving DecidableEq

/-- Modelled from the spec: a client's `query` record `{app, os, device, device_id}`
(the `Client` class is outside this excerpt). -/
structure ClientQuery where
  app : String
  os : String
  device : String
  device_id : String
deriving DecidableEq

/-- Modelled from the spec: `Client` (its class is outside this excerpt).
A client is identified by a unique `id`, owns a reference to its `device`,
has a `connected` observable boolean, and exposes `supportsPlugin`,
modelled as membership in `supportedPluginIds`. -/
structure Client where
  id : String
  query : ClientQuery
  device : BaseDevice
  connected : Bool
  supportedPluginIds : List String
deriving DecidableEq

/-- Modelled from the spec: `UninitializedClient`, a placeholder for a
connection mid-handshake, identified by `(deviceName, appName)`. -/
structure UninitializedClient where
  deviceName : String
  appName : String
deriving DecidableEq

/-- The connection state slice (`StateV2` in the source). `staticView` and
`deepLinkPayload` hold opaque values, modelled as `Option String`;
`flipperServer` is modelled by its presence. -/
structure State where
  devices : List BaseDevice
  selectedDevice : Option BaseDevice
  selectedPlugin : Option String
  selectedAppId : Option String
  userPreferredDevice : Option String
  userPreferredPlugin : Option String
  userPreferredApp : Option String
  enabledPlugins : List (String × List String)
  enabledDevicePlugins : List String
  clients : List Client
  uninitializedClients : List UninitializedClient
  deepLinkPayload : Option String
  staticView : Option String
  selectedAppPluginListRevision : Nat
  flipperServer : Option Unit
deriving DecidableEq

/-- The action union of the reducer. `unknownAction` stands for any action
kind the reducer does not recognise (its `default` branch). -/
inductive Action where
  | setFlipperServer
  | setStaticView (payload : Option String) (deepLinkPayload : Option String)
  | resetSupportFormV2State
  | selectDevice (payload : BaseDevice)
  | registerDevice (payload : BaseDevice)
  | selectPlugin (selectedPlugin : String) (selectedAppId : Option String)
      (deepLinkPayload : Option String) (selectedDevice : Option BaseDevice) (time : Nat)
  | newClient (payload : Client)
  | selectClient (payload : String)
  | clientRemoved (payload : String)
  | startClientSetup (payload : UninitializedClient)
  | registerPlugins
  | setPluginEnabled (pluginId : String) (selectedApp : String)
  | setDevicePluginEnabled (pluginId : String)
  | setPluginDisabled (pluginId : String) (selectedApp : String)
  | setDevicePluginDisabled (pluginId : String)
  | appPluginListChanged
  | unknownAction
deriving DecidableEq

def DEFAULT_PLUGIN : String := "DeviceLogs"

def DEFAULT_DEVICE_BLACKLIST : List String := ["MacOS", "Metro", "Windows"]

def INITAL_STATE : State where
  devices := []
  selectedDevice := none
  selectedAppId := none
  selectedPlugin := some DEFAULT_PLUGIN
  userPreferredDevice := none
  userPreferredPlugin := none
  userPreferredApp := none
  enabledPlugins := []
  enabledDevicePlugins :=
    ["DeviceLogs", "CrashReporter", "MobileBuilds", "Hermesdebuggerrn", "React"]
  clients := []
  uninitializedClients := []
  deepLinkPayload := none
  staticView := some "WelcomeScreen"
  selectedAppPluginListRevision := 0
  flipperServer := none

def canBeDefaultDevice (device : BaseDevice) : Bool :=
  !(decide (device.os ∈ DEFAULT_DEVICE_BLACKLIST))

/-- JS truthiness on a nullable string: `!x` is true exactly when `x` is
`null`/`undefined` or the empty string. -/
def strFalsy : Option String → Bool
  | none => true
  | some s => s == ""

/-- The JS nullish-coalescing operator `a ?? b` on nullable object values. -/
def jsOr {α : Type} (a b : Option α) : Option α :=
  match a with
  | some x => some x
  | none => b

/-- The `REGISTER_DEVICE` device-list update: `findIndex` on equal `serial`,
replace the first match in place (fatal if it is still connected), else
push the payload at the end. -/
def registerDeviceList (devices : List BaseDevice) (payload : BaseDevice) :
    Except String (List BaseDevice) :=
  match devices with
  | [] => .ok [payload]
  | d :: rest =>
    if d.serial = payload.serial then
      if d.connected then
        .error ("Cannot register, " ++ d.serial ++ " is still connected")
      else
        .ok (payload :: rest)
    else
      (registerDeviceList rest payload).map (fun l => d :: l)

/-- `SET_PLUGIN_ENABLED` on the `enabledPlugins` map: create an empty entry
for the app if absent (a fresh JS object key is appended last), then push
the plugin id unless already present. -/
def pluginsEnable (m : List (String × List String)) (app pid : String) :
    List (String × List String) :=
  match m with
  | [] => [(app, [pid])]
  | (k, v) :: rest =>
    if k = app then (k, if pid ∈ v then v else v ++ [pid]) :: rest
    else (k, v) :: pluginsEnable rest app pid

/-- `SET_PLUGIN_DISABLED` on the `enabledPlugins` map: create an empty entry
for the app if absent, then splice out the first occurrence of the plugin
id if present. -/
def pluginsDisable (m : List (String × List String)) (app pid : String) :
    List (String × List String) :=
  match m with
  | [] => [(app, [])]
  | (k, v) :: rest =>
    if k = app then (k, v.erase pid) :: rest
    else (k, v) :: pluginsDisable rest app pid

/-- The reducer (default export of `connections.tsx`). The one possible
throw (`REGISTER_DEVICE` of a still-connected serial) is an `Except.error`. -/
def reducer (state : State) (action : Action) : Except String State :=
  match action with
  | .setFlipperServer =>
      .ok { state with flipperServer := some () }
  | .setStaticView payload deepLinkPayload =>
      .ok { state with staticView := payload, deepLinkPayload := deepLinkPayload }
  | .resetSupportFormV2State =>
      .ok { state with staticView := none }
  | .selectDevice payload =>
      .ok { state with
        staticView := none
        selectedDevice := some payload
        selectedAppId := none
        userPreferredDevice := some payload.title }
  | .registerDevice payload =>
      match registerDeviceList state.devices payload with
      | .error msg => .error msg
      | .ok newDevices =>
        let selectNewDevice : Bool :=
          match state.selectedDevice with
          | none => true
          | some d => !d.isConnected || decide (state.userPreferredDevice = some payload.title)
        let selId : Option String :=
          if selectNewDevice then
            let a1 := (state.clients.find? (fun c =>
              decide (c.device = payload) &&
              decide (state.userPreferredApp = some c.query.app))).map Client.id
            if strFalsy a1 then
              (state.clients.find? (fun c => decide (c.device = payload))).map Client.id
            else a1
          else state.selectedAppId
        .ok { state with
          devices := newDevices
          selectedDevice := if selectNewDevice then some payload else state.selectedDevice
          selectedAppId := selId }
  | .selectPlugin selectedPlugin selectedAppId deepLinkPayload selectedDevice _time =>
      let client := state.clients.find? (fun c => decide (selectedAppId = some c.id))
      match jsOr selectedDevice (client.map Client.device) with
      | none => .ok state
      | some device =>
        .ok { state with
          staticView := none
          selectedDevice := some device
          userPreferredDevice :=
            if canBeDefaultDevice device then some device.title
            else state.userPreferredDevice
          selectedAppId := selectedAppId
          userPreferredApp :=
            match client with
            | some c => some c.query.app
            | none => state.userPreferredApp
          selectedPlugin := some selectedPlugin
          userPreferredPlugin := some selectedPlugin
          deepLinkPayload := deepLinkPayload }
  | .newClient payload =>
      let newClients :=
        (state.clients.filter (fun c => !decide (c.id = payload.id))) ++ [payload]
      let selectNewClient : Bool :=
        strFalsy state.selectedAppId ||
        decide (state.userPreferredApp = some payload.query.app) ||
        (match state.clients.find? (fun c => decide (state.selectedAppId = some c.id)) with
         | some c => !c.connected
         | none => false)
      .ok { state with
        selectedAppId := if selectNewClient then some payload.id else state.selectedAppId
        selectedDevice := if selectNewClient then some payload.device else state.selectedDevice
        clients := newClients
        uninitializedClients := state.uninitializedClients.filter (fun c =>
          !decide (c.deviceName = payload.query.device) ||
          !decide (c.appName = payload.query.app)) }
  | .selectClient payload =>
      match state.clients.find? (fun c => decide (c.id = payload)) with
      | none => .ok state
      | some client =>
        .ok { state with
          selectedAppId := some payload
          selectedDevice := some client.device
          userPreferredDevice := some client.device.title
          userPreferredApp := some client.query.app
          selectedPlugin :=
            if !strFalsy state.selectedPlugin &&
               (match state.selectedPlugin with
                | some p => decide (p ∈ client.supportedPluginIds)
                | none => false) then
              state.selectedPlugin
            else if !strFalsy state.userPreferredPlugin &&
               (match state.userPreferredPlugin with
                | some p => decide (p ∈ client.supportedPluginIds)
                | none => false) then
              state.userPreferredPlugin
            else none }
  | .clientRemoved payload =>
      .ok { state with
        selectedAppId :=
          if state.selectedAppId = some payload then none else state.selectedAppId
        clients := state.clients.filter (fun c => !decide (c.id = payload)) }
  | .startClientSetup payload =>
      .ok { state with
        uninitializedClients :=
          (state.uninitializedClients.filter (fun e => !decide (e = payload))) ++ [payload] }
  | .registerPlugins =>
      .ok state
  | .setPluginEnabled pluginId selectedApp =>
      .ok { state with enabledPlugins := pluginsEnable state.enabledPlugins selectedApp pluginId }
  | .setDevicePluginEnabled pluginId =>
      .ok { state with
        enabledDevicePlugins :=
          if pluginId ∈ state.enabledDevicePlugins then state.enabledDevicePlugins
          else state.enabledDevicePlugins ++ [pluginId] }
  | .setPluginDisabled pluginId selectedApp =>
      .ok { state with enabledPlugins := pluginsDisable state.enabledPlugins selectedApp pluginId }
  | .setDevicePluginDisabled pluginId =>
      .ok { state with enabledDevicePlugins := state.enabledDevicePlugins.erase pluginId }
  | .appPluginListChanged =>
      .ok { state with selectedAppPluginListRevision := state.selectedAppPluginListRevision + 1 }
  | .unknownAction =>
      .ok state

/-- The state actually held by the store after dispatching an action:
a thrown transition leaves the previous snapshot in place. -/
def applyAction (s : State) (a : Action) : State :=
  match reducer s a with
  | .ok s' => s'
  | .error _ => s

/-- States reachable from the initial state by a sequence of dispatched
actions. -/
inductive Reachable : State → Prop where
  | init : Reachable INITAL_STATE
  | step (s : State) (a : Action) : Reachable s → Reachable (applyAction s a)

/-- Selector `getActiveClient`: look up `selectedAppId` in `clients`. -/
def getActiveClient (s : State) : Option Client :=
  s.clients.find? (fun c => decide (s.selectedAppId = some c.id))

/-- Selector `getMetroDevice`: the first device whose `os` is `Metro` and
which is not archived. -/
def getMetroDevice (s : State) : Option BaseDevice :=
  s.devices.find? (fun d => decide (d.os = "Metro") && !d.isArchived)

/-- Selector `getActiveDevice`. -/
def getActiveDevice (s : State) : Option BaseDevice :=
  if s.selectedDevice ≠ getMetroDevice s then s.selectedDevice
  else
    match getActiveClient s with
    | some c => some c.device
    | none => s.selectedDevice

/-- Lookup in the `enabledPlugins` association map (JS property access). -/
def lookupEP (m : List (String × List String)) (k : String) : Option (List String) :=
  (m.find? (fun e => decide (e.1 = k))).map Prod.snd

/-- `devices` holds pairwise distinct serials. -/
def devicesUnique (l : List BaseDevice) : Prop :=
  l.Pairwise (fun a b => a.serial ≠ b.serial)

/-- `clients` holds pairwise distinct ids. -/
def clientsUnique (l : List Client) : Prop :=
  l.Pairwise (fun a b => a.id ≠ b.id)

/-- The documented invariant on `selectedAppId`: null or the id of a
present client. -/
def selectedAppIdConsistent (s : State) : Prop :=
  s.selectedAppId = none ∨ ∃ c ∈ s.clients, s.selectedAppId = some c.id

/-- A concrete Android device, disconnected. -/
def devA : BaseDevice :=
  { serial := "serial-1", title := "Pixel 4", os := "Android"
    connected := false, isConnected := false, isArchived := false }

/-- A concrete Metro device, connected. -/
def devB : BaseDevice :=
  { serial := "metro-0", title := "React Native", os := "Metro"
    connected := true, isConnected := true, isArchived := false }

/-- A connected device sharing `devA`'s serial. -/
def devC : BaseDevice :=
  { serial := "serial-1", title := "Pixel 4", os := "Android"
    connected := true, isConnected := true, isArchived := false }

/-- A concrete client running on `devA`. -/
def clientA : Client :=
  { id := "app1#Android#Pixel4#serial-1"
    query := { app := "app1", os := "Android", device := "Pixel 4", device_id := "serial-1" }
    device := devA, connected := true, supportedPluginIds := [] }

/-- A second concrete client running on `devA`. -/
def clientB : Client :=
  { id := "app2#Android#Pixel4#serial-1"
    query := { app := "app2", os := "Android", device := "Pixel 4", device_id := "serial-1" }
    device := devA, connected := true, supportedPluginIds := [] }

section RegisterDeviceListLemmas

theorem registerDeviceList_of_no_match (l : List BaseDevice) (p : BaseDevice)
    (h : ∀ d ∈ l, d.serial ≠ p.serial) :
    registerDeviceList l p = .ok (l ++ [p]) := by
  induction l with
  | nil => simp [registerDeviceList]
  | cons d rest ih =>
    have hd : d.serial ≠ p.serial := h d (by simp)
    simp only [registerDeviceList, if_neg hd,
      ih (fun x hx => h x (by simp [hx])), Except.map, List.cons_append]

theorem registerDeviceList_error_of_connected (l : List BaseDevice) (p d : BaseDevice)
    (hu : devicesUnique l) (hmem : d ∈ l) (hser : d.serial = p.serial)
    (hconn : d.connected = true) :
    registerDeviceList l p =
      .error ("Cannot register, " ++ d.serial ++ " is still connected") := by
  induction l with
  | nil => simp at hmem
  | cons x rest ih =>
    rcases List.mem_cons.mp hmem with rfl | hmem'
    · simp only [registerDeviceList, if_pos hser, if_pos hconn]
    · have hx : x.serial ≠ d.serial :=
        (List.pairwise_cons.mp hu).1 d hmem'
      have hxp : x.serial ≠ p.serial := by rw [← hser]; exact hx
      rw [registerDeviceList, if_neg hxp,
        ih (List.pairwise_cons.mp hu).2 hmem']
      rfl

theorem registerDeviceList_replace (l1 l2 : List BaseDevice) (p d : BaseDevice)
    (hu : devicesUnique (l1 ++ d :: l2)) (hser : d.serial = p.serial)
    (hconn : d.connected = false) :
    registerDeviceList (l1 ++ d :: l2) p = .ok (l1 ++ p :: l2) := by
  induction l1 with
  | nil =>
    simp only [List.nil_append]
    rw [registerDeviceList, if_pos hser, if_neg (by simp [hconn])]
  | cons x rest ih =>
    have hxd : x.serial ≠ d.serial := by
      have := (List.pairwise_cons.mp hu).1
      exact this d (by simp)
    have hxp : x.serial ≠ p.serial := by rw [← hser]; exact hxd
    simp only [List.cons_append]
    rw [registerDeviceList, if_neg hxp, ih (List.pairwise_cons.mp hu).2]
    rfl

theorem registerDeviceList_mem (l : List BaseDevice) (p : BaseDevice)
    (l' : List BaseDevice) (h : registerDeviceList l p = .ok l') :
    ∀ x ∈ l', x ∈ l ∨ x = p := by
  induction l generalizing l' with
  | nil =>
    simp only [registerDeviceList, Except.ok.injEq] at h
    subst h; simp
  | cons d rest ih =>
    by_cases hser : d.serial = p.serial
    · by_cases hconn : d.connected
      · simp [registerDeviceList, if_pos hser, hconn] at h
      · simp only [registerDeviceList, if_pos hser, hconn, if_neg,
          Bool.false_eq_true, if_false, Except.ok.injEq] at h
        subst h
        intro x hx
        rcases List.mem_cons.mp hx with rfl | hx'
        · right; rfl
        · left; simp [hx']
    · rw [registerDeviceList, if_neg hser] at h
      cases hr : registerDeviceList rest p with
      | error msg => rw [hr] at h; simp [Except.map] at h
      | ok l'' =>
        rw [hr] at h
        simp only [Except.map, Except.ok.injEq] at h
        subst h
        intro x hx
        rcases List.mem_cons.mp hx with rfl | hx'
        · left; simp
        · rcases ih l'' hr x hx' with hin | rfl
          · left; simp [hin]
          · right; rfl

theorem registerDeviceList_unique (l : List BaseDevice) (p : BaseDevice)
    (l' : List BaseDevice) (hu : devicesUnique l)
    (h : registerDeviceList l p = .ok l') : devicesUnique l' := by
  induction l generalizing l' with
  | nil =>
    simp only [registerDeviceList, Except.ok.injEq] at h
    subst h; simp [devicesUnique]
  | cons d rest ih =>
    have hu' := List.pairwise_cons.mp hu
    by_cases hser : d.serial = p.serial
    · by_cases hconn : d.connected
      · simp [registerDeviceList, if_pos hser, hconn] at h
      · simp only [registerDeviceList, if_pos hser, hconn, Bool.false_eq_true,
          if_false, Except.ok.injEq] at h
        subst h
        exact List.pairwise_cons.mpr
          ⟨fun b hb => by rw [← hser]; exact hu'.1 b hb, hu'.2⟩
    · rw [registerDeviceList, if_neg hser] at h
      cases hr : registerDeviceList rest p with
      | error msg => rw [hr] at h; simp [Except.map] at h
      | ok l'' =>
        rw [hr] at h
        simp only [Except.map, Except.ok.injEq] at h
        subst h
        refine List.pairwise_cons.mpr ⟨fun b hb => ?_, ih l'' hu'.2 hr⟩
        rcases registerDeviceList_mem rest p l'' hr b hb with hin | rfl
        · exact hu'.1 b hin
        · exact hser

end RegisterDeviceListLemmas

/-- C2: for every state whose devices carry distinct serials and every
`REGISTER_DEVICE` action: if a device with the payload's serial is present
and reports connected, the transition raises an unrecoverable error and the
stored state is unchanged; if it is present but not connected, the payload
replaces it at the same position; if no device has that serial, the payload
is appended. -/
theorem registerDevice_serial_cases (s : State) (p : BaseDevice)
    (hu : devicesUnique s.devices) :
    ((∃ d ∈ s.devices, d.serial = p.serial ∧ d.connected = true) →
      (∃ msg, reducer s (.registerDevice p) = .error msg) ∧
        applyAction s (.registerDevice p) = s)
  ∧ (∀ l1 d l2, s.devices = l1 ++ d :: l2 → d.serial = p.serial → d.connected = false →
      ∃ s', reducer s (.registerDevice p) = .ok s' ∧ s'.devices = l1 ++ p :: l2)
  ∧ ((∀ d ∈ s.devices, d.serial ≠ p.serial) →
      ∃ s', reducer s (.registerDevice p) = .ok s' ∧ s'.devices = s.devices ++ [p]) := by
  refine ⟨?_, ?_, ?_⟩
  · rintro ⟨d, hd, hser, hconn⟩
    have herr := registerDeviceList_error_of_connected s.devices p d hu hd hser hconn
    constructor
    · simp only [reducer, herr]
      exact ⟨_, rfl⟩
    · simp only [applyAction, reducer, herr]
  · intro l1 d l2 hdec hser hconn
    have hok : registerDeviceList s.devices p = .ok (l1 ++ p :: l2) := by
      rw [hdec]
      exact registerDeviceList_replace l1 l2 p d (by rw [← hdec]; exact hu) hser hconn
    simp only [reducer, hok]
    exact ⟨_, rfl, rfl⟩
  · intro hno
    have hok : registerDeviceList s.devices p = .ok (s.devices ++ [p]) :=
      registerDeviceList_of_no_match s.devices p hno
    simp only [reducer, hok]
    exact ⟨_, rfl, rfl⟩

/-- Witness for C2 at a concrete input: registering a device with a fresh
serial appends it. -/
theorem registerDevice_serial_cases_witness :
    devicesUnique (State.devices { INITAL_STATE with devices := [devA] }) ∧
    ∃ s', reducer { INITAL_STATE with devices := [devA] } (.registerDevice devB) = .ok s' ∧
      s'.devices = [devA] ++ [devB] :=
  ⟨by simp [devicesUnique],
    (registerDevice_serial_cases { INITAL_STATE with devices := [devA] } devB
      (by simp [devicesUnique])).2.2 (by decide)⟩

theorem newClients_unique (l : List Client) (p : Client) (hu : clientsUnique l) :
    clientsUnique ((l.filter (fun c => !decide (c.id = p.id))) ++ [p]) := by
  rw [clientsUnique, List.pairwise_append]
  refine ⟨List.Pairwise.filter _ hu, List.pairwise_singleton _ _, ?_⟩
  intro x hx b hb
  have hxid : ¬ x.id = p.id := by simpa using (List.mem_filter.mp hx).2
  have hbp : b = p := by simpa using hb
  subst hbp
  exact hxid

theorem applyAction_preserves_unique (s : State) (a : Action)
    (hc : clientsUnique s.clients) (hd : devicesUnique s.devices) :
    clientsUnique (applyAction s a).clients ∧ devicesUnique (applyAction s a).devices := by
  cases a
  case registerDevice p =>
    cases hr : registerDeviceList s.devices p with
    | error msg =>
      simp only [applyAction, reducer, hr]
      exact ⟨hc, hd⟩
    | ok nd =>
      simp only [applyAction, reducer, hr]
      exact ⟨hc, registerDeviceList_unique s.devices p nd hd hr⟩
  case selectPlugin pl apId dl sd t =>
    cases hdev : jsOr sd ((s.clients.find?
        (fun c => decide (apId = some c.id))).map Client.device) with
    | none => simp only [applyAction, reducer, hdev]; exact ⟨hc, hd⟩
    | some dev => simp only [applyAction, reducer, hdev]; exact ⟨hc, hd⟩
  case selectClient p =>
    cases hf : s.clients.find? (fun c => decide (c.id = p)) with
    | none => simp only [applyAction, reducer, hf]; exact ⟨hc, hd⟩
    | some c => simp only [applyAction, reducer, hf]; exact ⟨hc, hd⟩
  case newClient p => exact ⟨newClients_unique s.clients p hc, hd⟩
  case clientRemoved p => exact ⟨List.Pairwise.filter _ hc, hd⟩
  all_goals exact ⟨hc, hd⟩

/-- C1: in every state reachable by dispatching a sequence of actions from
the initial state, `clients` never contains two entries with an equal `id`
and `devices` never contains two entries with an equal `serial`. -/
theorem clients_devices_unique_of_reachable (s : State) (h : Reachable s) :
    clientsUnique s.clients ∧ devicesUnique s.devices := by
  induction h with
  | init => exact ⟨List.Pairwise.nil, List.Pairwise.nil⟩
  | step s' a _ ih => exact applyAction_preserves_unique s' a ih.1 ih.2

/-- Witness for C1 at a concrete reachable state: after registering one
device from the initial state. -/
theorem clients_devices_unique_witness :
    clientsUnique (applyAction INITAL_STATE (.registerDevice devA)).clients ∧
    devicesUnique (applyAction INITAL_STATE (.registerDevice devA)).devices :=
  clients_devices_unique_of_reachable _
    (Reachable.step INITAL_STATE (.registerDevice devA) Reachable.init)

theorem selectNewDevice_eq_true_iff (s : State) (p : BaseDevice) :
    ((match s.selectedDevice with
      | none => true
      | some d => !d.isConnected || decide (s.userPreferredDevice = some p.title)) = true)
    ↔ (s.selectedDevice = none ∨
       (∃ d, s.selectedDevice = some d ∧ d.isConnected = false) ∨
       s.userPreferredDevice = some p.title) := by
  cases hsel : s.selectedDevice with
  | none => simp
  | some d =>
    cases hic : d.isConnected <;>
      simp [Bool.or_eq_true, decide_eq_true_iff, hic]

/-- C3: for every state (with non-empty client ids) and every non-fatal
`REGISTER_DEVICE`, the registered device becomes `selectedDevice` exactly
when there was no selection, the selection was not connected, or the
preferred device title matches; in that case `selectedAppId` becomes the id
of the first client on the new device running the preferred app, else the
first client on the new device, else null; otherwise both selection fields
are unchanged. -/
theorem registerDevice_selection_update (s : State) (p : BaseDevice)
    (hids : ∀ c ∈ s.clients, c.id ≠ "")
    (s' : State) (hok : reducer s (.registerDevice p) = .ok s') :
    ((s.selectedDevice = none ∨
      (∃ d, s.selectedDevice = some d ∧ d.isConnected = false) ∨
      s.userPreferredDevice = some p.title) →
        s'.selectedDevice = some p ∧
        s'.selectedAppId =
          (match s.clients.find? (fun c =>
              decide (c.device = p) && decide (s.userPreferredApp = some c.query.app)) with
           | some c => some c.id
           | none => (s.clients.find? (fun c => decide (c.device = p))).map Client.id))
  ∧ (¬(s.selectedDevice = none ∨
      (∃ d, s.selectedDevice = some d ∧ d.isConnected = false) ∨
      s.userPreferredDevice = some p.title) →
        s'.selectedDevice = s.selectedDevice ∧ s'.selectedAppId = s.selectedAppId) := by
  have hiff := selectNewDevice_eq_true_iff s p
  cases hr : registerDeviceList s.devices p with
  | error msg =>
    simp only [reducer, hr] at hok
    exact Except.noConfusion hok
  | ok nd =>
    simp only [reducer, hr, Except.ok.injEq] at hok
    subst hok
    constructor
    · intro hcond
      have hb := hiff.mpr hcond
      refine ⟨by simp only [hb, if_true], ?_⟩
      cases hf : s.clients.find? (fun c =>
          decide (c.device = p) && decide (s.userPreferredApp = some c.query.app)) with
      | some c =>
        have hmem := List.mem_of_find?_eq_some hf
        have hfalsy : strFalsy (some c.id) = false := by
          simp [strFalsy, hids c hmem]
        simp only [hb, if_true, hf, Option.map_some', hfalsy, Bool.false_eq_true, if_false]
      | none =>
        simp only [hb, if_true, hf, strFalsy, Option.map_none', if_true]
    · intro hncond
      have hb : (match s.selectedDevice with
          | none => true
          | some d => !d.isConnected || decide (s.userPreferredDevice = some p.title)) = false := by
        cases hmatch : (match s.selectedDevice with
            | none => true
            | some d => !d.isConnected || decide (s.userPreferredDevice = some p.title)) with
        | true => exact absurd (hiff.mp hmatch) hncond
        | false => rfl
      simp [hb]

/-- Witness for C3 at a concrete input: registering `devA` while nothing is
selected selects it and its first client. -/
theorem registerDevice_selection_update_witness :
    (∀ c ∈ (State.clients { INITAL_STATE with clients := [clientA] }), c.id ≠ "") ∧
    (applyAction { INITAL_STATE with clients := [clientA] }
        (.registerDevice devA)).selectedDevice = some devA ∧
    (applyAction { INITAL_STATE with clients := [clientA] }
        (.registerDevice devA)).selectedAppId = some clientA.id := by
  refine ⟨by decide, ?_, ?_⟩
  · exact ((registerDevice_selection_update { INITAL_STATE with clients := [clientA] } devA
      (by decide) _ rfl).1 (Or.inl rfl)).1
  · exact (((registerDevice_selection_update { INITAL_STATE with clients := [clientA] } devA
      (by decide) _ rfl).1 (Or.inl rfl)).2).trans (by decide)

theorem bor_iff (a b : Bool) : (a || b) = true ↔ a = true ∨ b = true := by
  cases a <;> cases b <;> simp

theorem client_eq_of_id_eq (l : List Client) (hu : clientsUnique l) (a b : Client)
    (ha : a ∈ l) (hb : b ∈ l) (hid : a.id = b.id) : a = b := by
  have hnd : (l.map Client.id).Nodup := List.pairwise_map.mpr hu
  exact List.inj_on_of_nodup_map hnd ha hb hid

theorem selectNewClient_eq_true_iff (s : State) (p : Client)
    (hu : clientsUnique s.clients) (hne : s.selectedAppId ≠ some "") :
    ((strFalsy s.selectedAppId ||
      decide (s.userPreferredApp = some p.query.app) ||
      (match s.clients.find? (fun c => decide (s.selectedAppId = some c.id)) with
       | some c => !c.connected
       | none => false)) = true)
    ↔ (s.selectedAppId = none ∨ s.userPreferredApp = some p.query.app ∨
       ∃ c ∈ s.clients, s.selectedAppId = some c.id ∧ c.connected = false) := by
  constructor
  · intro hb
    rcases (bor_iff _ _).mp hb with hb' | hmatch
    · rcases (bor_iff _ _).mp hb' with hfalsy | hpref
      · left
        cases hsel : s.selectedAppId with
        | none => rfl
        | some v =>
          rw [hsel] at hfalsy
          simp only [strFalsy, beq_iff_eq] at hfalsy
          exact absurd (hsel.trans (by rw [hfalsy])) hne
      · exact Or.inr (Or.inl (of_decide_eq_true hpref))
    · cases hf : s.clients.find? (fun c => decide (s.selectedAppId = some c.id)) with
      | none => rw [hf] at hmatch; exact absurd hmatch (by simp)
      | some c =>
        rw [hf] at hmatch
        have h1 := List.find?_some hf
        refine Or.inr (Or.inr ⟨c, List.mem_of_find?_eq_some hf,
          of_decide_eq_true h1, ?_⟩)
        simpa using hmatch
  · intro hcond
    rcases hcond with hnone | hpref | ⟨c, hc, hid, hconn⟩
    · apply (bor_iff _ _).mpr; left
      apply (bor_iff _ _).mpr; left
      rw [hnone]; rfl
    · apply (bor_iff _ _).mpr; left
      apply (bor_iff _ _).mpr; right
      exact decide_eq_true hpref
    · apply (bor_iff _ _).mpr; right
      cases hf : s.clients.find? (fun c => decide (s.selectedAppId = some c.id)) with
      | none =>
        exact absurd (decide_eq_true hid)
          (List.find?_eq_none.mp hf c hc)
      | some c' =>
        have h1 := List.find?_some hf
        have hid' : s.selectedAppId = some c'.id := of_decide_eq_true h1
        have : c = c' := by
          apply client_eq_of_id_eq s.clients hu c c' hc (List.mem_of_find?_eq_some hf)
          have := hid.symm.trans hid'
          simpa using this
        subst this
        simp [hconn]

/-- C4: for every state (with unique client ids and a prior `selectedAppId`
that is not the empty string) and every `NEW_CLIENT` action: the selection
switches to the new client exactly when there was no prior selection, the
user-preferred app matches the new client's app, or the previously selected
client reports disconnected; otherwise the selection fields are unchanged;
and an `UninitializedClient` survives exactly when its `(deviceName,
appName)` does not match the new client's query. -/
theorem newClient_selection_and_handshake (s : State) (p : Client)
    (hu : clientsUnique s.clients) (hne : s.selectedAppId ≠ some "") :
    ((s.selectedAppId = none ∨ s.userPreferredApp = some p.query.app ∨
      ∃ c ∈ s.clients, s.selectedAppId = some c.id ∧ c.connected = false) →
        (applyAction s (.newClient p)).selectedAppId = some p.id ∧
        (applyAction s (.newClient p)).selectedDevice = some p.device)
  ∧ (¬(s.selectedAppId = none ∨ s.userPreferredApp = some p.query.app ∨
      ∃ c ∈ s.clients, s.selectedAppId = some c.id ∧ c.connected = false) →
        (applyAction s (.newClient p)).selectedAppId = s.selectedAppId ∧
        (applyAction s (.newClient p)).selectedDevice = s.selectedDevice)
  ∧ (∀ u, u ∈ (applyAction s (.newClient p)).uninitializedClients ↔
        u ∈ s.uninitializedClients ∧
        ¬(u.deviceName = p.query.device ∧ u.appName = p.query.app)) := by
  have hiff := selectNewClient_eq_true_iff s p hu hne
  refine ⟨?_, ?_, ?_⟩
  · intro hcond
    have hb := hiff.mpr hcond
    simp [applyAction, reducer, hb]
  · intro hncond
    have hb : (strFalsy s.selectedAppId ||
        decide (s.userPreferredApp = some p.query.app) ||
        (match s.clients.find? (fun c => decide (s.selectedAppId = some c.id)) with
         | some c => !c.connected
         | none => false)) = false := by
      cases hmatch : (strFalsy s.selectedAppId ||
          decide (s.userPreferredApp = some p.query.app) ||
          (match s.clients.find? (fun c => decide (s.selectedAppId = some c.id)) with
           | some c => !c.connected
           | none => false)) with
      | true => exact absurd (hiff.mp hmatch) hncond
      | false => rfl
    simp [applyAction, reducer, hb]
  · intro u
    simp only [applyAction, reducer, List.mem_filter]
    constructor
    · rintro ⟨hmem, hpred⟩
      refine ⟨hmem, ?_⟩
      rcases (bor_iff _ _).mp hpred with hdev | happ
      · intro hand
        exact absurd (decide_eq_true hand.1) (by simpa using hdev)
      · intro hand
        exact absurd (decide_eq_true hand.2) (by simpa using happ)
    · rintro ⟨hmem, hnand⟩
      refine ⟨hmem, ?_⟩
      by_cases hdev : u.deviceName = p.query.device
      · have happ : ¬ u.appName = p.query.app := fun h => hnand ⟨hdev, h⟩
        apply (bor_iff _ _).mpr; right
        simpa using happ
      · apply (bor_iff _ _).mpr; left
        simpa using hdev

/-- The concrete state of the C4 witness: one connected client selected,
while the user-preferred app is the app of the incoming client. -/
def stateC4 : State :=
  { INITAL_STATE with
    clients := [clientA]
    selectedAppId := some clientA.id
    userPreferredApp := some "app2" }

/-- Witness for C4 at a concrete input (Scenario C): a new client whose app
matches the user preference steals the selection from a connected client. -/
theorem newClient_selection_and_handshake_witness :
    clientsUnique stateC4.clients ∧
    (applyAction stateC4 (.newClient clientB)).selectedAppId = some clientB.id ∧
    (applyAction stateC4 (.newClient clientB)).selectedDevice = some clientB.device :=
  ⟨by simp [stateC4, clientsUnique],
    (newClient_selection_and_handshake stateC4 clientB
      (by simp [stateC4, clientsUnique]) (by decide)).1 (Or.inr (Or.inl (by decide)))⟩

/-- C5: for every state and every `SELECT_PLUGIN` action whose target
device resolves (the payload device if given, else the device of the client
named by the payload's `selectedAppId`), the transition clears
`staticView`, sets `selectedDevice`, `selectedAppId` and `selectedPlugin`
as given, updates `userPreferredDevice` only when the device may be a
default, always updates `userPreferredApp` (to the resolved client's app,
if any) and `userPreferredPlugin`, and records the `deepLinkPayload`
(null when absent). -/
theorem selectPlugin_resolved_update (s : State) (pl : String) (apId : Option String)
    (dl : Option String) (sd : Option BaseDevice) (t : Nat) (dev : BaseDevice)
    (hdev : jsOr sd ((s.clients.find? (fun c => decide (apId = some c.id))).map Client.device)
      = some dev) :
    reducer s (.selectPlugin pl apId dl sd t) = .ok { s with
      staticView := none
      selectedDevice := some dev
      selectedAppId := apId
      selectedPlugin := some pl
      userPreferredPlugin := some pl
      userPreferredDevice :=
        if canBeDefaultDevice dev then some dev.title else s.userPreferredDevice
      userPreferredApp :=
        match s.clients.find? (fun c => decide (apId = some c.id)) with
        | some c => some c.query.app
        | none => s.userPreferredApp
      deepLinkPayload := dl } := by
  simp only [reducer, hdev]

/-- The concrete state of the C5 witness: one known client. -/
def stateC5 : State := { INITAL_STATE with clients := [clientA] }

/-- Witness for C5 at a concrete input: selecting a plugin for `clientA`
resolves its device and updates every field as specified. -/
theorem selectPlugin_resolved_update_witness :
    jsOr (none : Option BaseDevice)
      ((stateC5.clients.find?
        (fun c => decide ((some clientA.id : Option String) = some c.id))).map Client.device)
      = some devA ∧
    reducer stateC5 (.selectPlugin "PluginX" (some clientA.id) none none 0) = .ok
      { stateC5 with
        staticView := none
        selectedDevice := some devA
        selectedAppId := some clientA.id
        selectedPlugin := some "PluginX"
        userPreferredPlugin := some "PluginX"
        userPreferredDevice :=
          if canBeDefaultDevice devA then some devA.title else stateC5.userPreferredDevice
        userPreferredApp :=
          match stateC5.clients.find?
              (fun c => decide ((some clientA.id : Option String) = some c.id)) with
          | some c => some c.query.app
          | none => stateC5.userPreferredApp
        deepLinkPayload := none } :=
  ⟨by decide,
    selectPlugin_resolved_update stateC5 "PluginX" (some clientA.id) none none 0 devA
      (by decide)⟩

/-- C6: for every state and every `SELECT_PLUGIN` action in which no device
resolves (no payload device and the payload's `selectedAppId` matches no
client), the transition returns the state unchanged. -/
theorem selectPlugin_unresolvable_noop (s : State) (pl : String) (apId : Option String)
    (dl : Option String) (t : Nat)
    (hnc : ∀ c ∈ s.clients, apId ≠ some c.id) :
    reducer s (.selectPlugin pl apId dl none t) = .ok s := by
  have hf : s.clients.find? (fun c => decide (apId = some c.id)) = none :=
    List.find?_eq_none.mpr (fun c hc => by simpa using hnc c hc)
  simp only [reducer, hf, Option.map_none', jsOr]

/-- Witness for C6 at a concrete input (Scenario D): selecting a plugin
with no app and no device from the initial state is a no-op. -/
theorem selectPlugin_unresolvable_noop_witness :
    (∀ c ∈ INITAL_STATE.clients, (none : Option String) ≠ some c.id) ∧
    reducer INITAL_STATE (.selectPlugin "PluginX" none none none 0) = .ok INITAL_STATE :=
  ⟨by simp [INITAL_STATE],
    selectPlugin_unresolvable_noop INITAL_STATE "PluginX" none none 0
      (by simp [INITAL_STATE])⟩

/-- Counterexample to C7 as stated: a single `SELECT_PLUGIN` dispatch from
the initial state, carrying an explicit device and an app id that names no
client, reaches a state whose `selectedAppId` is not null and not the id of
any present client. -/
theorem selectedAppId_invariant_counterexample :
    ¬ ∀ s, Reachable s →
      (s.selectedAppId = none ∨ ∃ c ∈ s.clients, s.selectedAppId = some c.id) := fun h =>
  absurd
    (h _ (Reachable.step INITAL_STATE
      (.selectPlugin "PluginX" (some "ghost") none (some devA) 0) Reachable.init))
    (by decide)

/-- The one action shape that can break the `selectedAppId` invariant: a
`SELECT_PLUGIN` carrying an explicit device together with a non-null app id
that names no client of the state. -/
def badSelectPlugin (s : State) (a : Action) : Prop :=
  ∃ pl apId dl sd t, a = Action.selectPlugin pl apId dl sd t ∧
    sd ≠ none ∧ apId ≠ none ∧ ∀ c ∈ s.clients, apId ≠ some c.id

/-- C7 (amended): every transition other than a `SELECT_PLUGIN` that names
an unknown app id while providing an explicit device preserves the
invariant that `selectedAppId` is null or the id of a present client. -/
theorem selectedAppId_invariant_amended (s : State) (a : Action)
    (hinv : selectedAppIdConsistent s) (hgood : ¬ badSelectPlugin s a) :
    selectedAppIdConsistent (applyAction s a) := by
  cases a
  case selectDevice p => exact Or.inl rfl
  case registerDevice p =>
    cases hr : registerDeviceList s.devices p with
    | error msg =>
      simp only [applyAction, reducer, hr]
      exact hinv
    | ok nd =>
      cases hb : (match s.selectedDevice with
          | none => true
          | some d => !d.isConnected || decide (s.userPreferredDevice = some p.title)) with
      | false =>
        simp only [selectedAppIdConsistent, applyAction, reducer, hr, hb,
          Bool.false_eq_true, if_false]
        exact hinv
      | true =>
        simp only [selectedAppIdConsistent, applyAction, reducer, hr, hb, if_true]
        cases hf1 : s.clients.find? (fun c =>
            decide (c.device = p) && decide (s.userPreferredApp = some c.query.app)) with
        | some c =>
          simp only [hf1, Option.map_some']
          cases hsf : strFalsy (some c.id) with
          | true =>
            simp only [hsf, if_true]
            cases hf2 : s.clients.find? (fun c => decide (c.device = p)) with
            | none => simp [hf2]
            | some c2 =>
              simp only [hf2, Option.map_some']
              exact Or.inr ⟨c2, List.mem_of_find?_eq_some hf2, rfl⟩
          | false =>
            simp only [hsf, Bool.false_eq_true, if_false]
            exact Or.inr ⟨c, List.mem_of_find?_eq_some hf1, rfl⟩
        | none =>
          simp only [hf1, Option.map_none']
          cases hf2 : s.clients.find? (fun c => decide (c.device = p)) with
          | none => simp [hf2, strFalsy]
          | some c2 =>
            simp only [strFalsy, if_true, hf2, Option.map_some']
            exact Or.inr ⟨c2, List.mem_of_find?_eq_some hf2, rfl⟩
  case selectPlugin pl apId dl sd t =>
    cases hdev : jsOr sd
        ((s.clients.find? (fun c => decide (apId = some c.id))).map Client.device) with
    | none =>
      simp only [applyAction, reducer, hdev]
      exact hinv
    | some dev =>
      simp only [selectedAppIdConsistent, applyAction, reducer, hdev]
      by_contra hcon
      push_neg at hcon
      obtain ⟨hne, hall⟩ := hcon
      cases hsd : sd with
      | some d =>
        exact hgood ⟨pl, apId, dl, sd, t, rfl, by rw [hsd]; simp, hne, hall⟩
      | none =>
        rw [hsd] at hdev
        cases hf : s.clients.find? (fun c => decide (apId = some c.id)) with
        | none => rw [hf] at hdev; simp [jsOr] at hdev
        | some c =>
          have h1 := List.find?_some hf
          exact absurd (of_decide_eq_true h1) (hall c (List.mem_of_find?_eq_some hf))
  case newClient p =>
    cases hb : (strFalsy s.selectedAppId ||
        decide (s.userPreferredApp = some p.query.app) ||
        (match s.clients.find? (fun c => decide (s.selectedAppId = some c.id)) with
         | some c => !c.connected
         | none => false)) with
    | true =>
      simp only [selectedAppIdConsistent, applyAction, reducer, hb, if_true]
      refine Or.inr ⟨p, ?_, rfl⟩
      simp
    | false =>
      simp only [selectedAppIdConsistent, applyAction, reducer, hb,
        Bool.false_eq_true, if_false]
      rcases hinv with hnone | ⟨c, hc, hid⟩
      · exact Or.inl hnone
      · by_cases hcp : c.id = p.id
        · exact Or.inr ⟨p, by simp, by rw [hid, hcp]⟩
        · refine Or.inr ⟨c, ?_, hid⟩
          simp only [List.mem_append]
          left
          rw [List.mem_filter]
          exact ⟨hc, by simpa using hcp⟩
  case selectClient pid =>
    cases hf : s.clients.find? (fun c => decide (c.id = pid)) with
    | none =>
      simp only [applyAction, reducer, hf]
      exact hinv
    | some client =>
      simp only [selectedAppIdConsistent, applyAction, reducer, hf]
      have h1 := List.find?_some hf
      exact Or.inr ⟨client, List.mem_of_find?_eq_some hf, by rw [of_decide_eq_true h1]⟩
  case clientRemoved pid =>
    by_cases hsel : s.selectedAppId = some pid
    · simp only [selectedAppIdConsistent, applyAction, reducer, if_pos hsel]
      exact Or.inl (by trivial)
    · simp only [selectedAppIdConsistent, applyAction, reducer, if_neg hsel]
      rcases hinv with hnone | ⟨c, hc, hid⟩
      · exact Or.inl hnone
      · refine Or.inr ⟨c, ?_, hid⟩
        rw [List.mem_filter]
        refine ⟨hc, ?_⟩
        have hcne : c.id ≠ pid := fun h => hsel (by rw [hid, h])
        simpa using hcne
  all_goals exact hinv

/-- Witness for the amended C7 at a concrete input: selecting a device from
the initial state keeps the invariant. -/
theorem selectedAppId_invariant_amended_witness :
    selectedAppIdConsistent (applyAction INITAL_STATE (.selectDevice devA)) :=
  selectedAppId_invariant_amended INITAL_STATE (.selectDevice devA) (Or.inl rfl)
    (by simp [badSelectPlugin])

section EnabledPluginsLemmas

theorem lookupEP_cons (k : String) (v : List String) (rest : List (String × List String))
    (a : String) :
    lookupEP ((k, v) :: rest) a = if k = a then some v else lookupEP rest a := by
  by_cases h : k = a <;> simp [lookupEP, List.find?_cons, h]

theorem pluginsDisable_not_present (m : List (String × List String)) (a p : String)
    (v : List String) (hv : lookupEP m a = some v) (hnp : p ∉ v) :
    pluginsDisable m a p = m := by
  induction m with
  | nil => simp [lookupEP] at hv
  | cons e rest ih =>
    obtain ⟨k, w⟩ := e
    by_cases h : k = a
    · have hw : w = v := by
        rw [lookupEP_cons, if_pos h] at hv
        exact Option.some.inj hv
      subst hw
      simp only [pluginsDisable, if_pos h, List.erase_of_not_mem hnp]
    · rw [lookupEP_cons, if_neg h] at hv
      simp only [pluginsDisable, if_neg h]
      rw [ih hv]

theorem pluginsDisable_absent (m : List (String × List String)) (a p : String)
    (h : lookupEP m a = none) :
    pluginsDisable m a p = m ++ [(a, [])] := by
  induction m with
  | nil => simp [pluginsDisable]
  | cons e rest ih =>
    obtain ⟨k, w⟩ := e
    by_cases hk : k = a
    · rw [lookupEP_cons, if_pos hk] at h
      exact absurd h (by simp)
    · rw [lookupEP_cons, if_neg hk] at h
      simp only [pluginsDisable, if_neg hk, List.cons_append]
      rw [ih h]

theorem pluginsEnable_idem (m : List (String × List String)) (a p : String) :
    pluginsEnable (pluginsEnable m a p) a p = pluginsEnable m a p := by
  induction m with
  | nil => simp [pluginsEnable]
  | cons e rest ih =>
    obtain ⟨k, w⟩ := e
    by_cases hk : k = a
    · by_cases hp : p ∈ w
      · simp [pluginsEnable, hk, hp]
      · simp [pluginsEnable, hk, hp]
    · simp only [pluginsEnable, if_neg hk]
      rw [ih]

theorem lookupEP_pluginsEnable_self (m : List (String × List String)) (a p : String) :
    lookupEP (pluginsEnable m a p) a =
      some (if p ∈ (lookupEP m a).getD [] then (lookupEP m a).getD []
            else (lookupEP m a).getD [] ++ [p]) := by
  induction m with
  | nil => simp [pluginsEnable, lookupEP, List.find?_cons]
  | cons e rest ih =>
    obtain ⟨k, w⟩ := e
    by_cases hk : k = a
    · simp only [pluginsEnable, if_pos hk]
      rw [lookupEP_cons, if_pos hk, lookupEP_cons, if_pos hk]
      simp
    · simp only [pluginsEnable, if_neg hk]
      rw [lookupEP_cons, if_neg hk, lookupEP_cons, if_neg hk]
      exact ih

end EnabledPluginsLemmas

/-- Counterexample to C8 as stated: disabling a plugin for an app with no
entry in `enabledPlugins` does not return an equal state — the transition
creates an empty entry for that app. -/
theorem setPluginDisabled_noop_counterexample :
    lookupEP INITAL_STATE.enabledPlugins "appX" = none ∧
    applyAction INITAL_STATE (.setPluginDisabled "pluginY" "appX") ≠ INITAL_STATE := by
  constructor
  · rfl
  · decide

/-- C8 (amended): `SET_PLUGIN_DISABLED(p, a)` returns an equal state when
`a` has an `enabledPlugins` entry that does not contain `p`; when `a` has
no entry, the only change is a fresh empty entry for `a`; and
`SET_DEVICE_PLUGIN_DISABLED(p)` with `p` not in `enabledDevicePlugins`
returns an equal state. -/
theorem setPluginDisabled_noop_amended (s : State) (p a : String) :
    (∀ v, lookupEP s.enabledPlugins a = some v → p ∉ v →
        applyAction s (.setPluginDisabled p a) = s)
  ∧ (lookupEP s.enabledPlugins a = none →
        applyAction s (.setPluginDisabled p a) =
          { s with enabledPlugins := s.enabledPlugins ++ [(a, [])] })
  ∧ (p ∉ s.enabledDevicePlugins →
        applyAction s (.setDevicePluginDisabled p) = s) := by
  refine ⟨?_, ?_, ?_⟩
  · intro v hv hnp
    show ({ s with enabledPlugins := pluginsDisable s.enabledPlugins a p } : State) = s
    rw [pluginsDisable_not_present s.enabledPlugins a p v hv hnp]
  · intro h
    show ({ s with enabledPlugins := pluginsDisable s.enabledPlugins a p } : State) = _
    rw [pluginsDisable_absent s.enabledPlugins a p h]
  · intro h
    show ({ s with enabledDevicePlugins := s.enabledDevicePlugins.erase p } : State) = s
    rw [List.erase_of_not_mem h]

/-- Witness for the amended C8 at a concrete input: disabling a
device plugin that is not enabled leaves the initial state unchanged. -/
theorem setPluginDisabled_noop_amended_witness :
    "pluginY" ∉ INITAL_STATE.enabledDevicePlugins ∧
    applyAction INITAL_STATE (.setDevicePluginDisabled "pluginY") = INITAL_STATE :=
  ⟨by decide, (setPluginDisabled_noop_amended INITAL_STATE "pluginY" "appX").2.2 (by decide)⟩

/-- C9: enabling a plugin for an app is idempotent — a second
`SET_PLUGIN_ENABLED(p, a)` returns the very same state; after one
application the entry for `a` keeps its previous elements in order with `p`
appended at the end when it was absent; and (provided the entry held `p` at
most once, as all reachable states do) `p` occurs exactly once
afterwards. -/
theorem setPluginEnabled_idempotent (s : State) (p a : String)
    (hcount : ((lookupEP s.enabledPlugins a).getD []).count p ≤ 1) :
    applyAction (applyAction s (.setPluginEnabled p a)) (.setPluginEnabled p a) =
      applyAction s (.setPluginEnabled p a)
  ∧ lookupEP (applyAction s (.setPluginEnabled p a)).enabledPlugins a =
      some (if p ∈ (lookupEP s.enabledPlugins a).getD []
            then (lookupEP s.enabledPlugins a).getD []
            else (lookupEP s.enabledPlugins a).getD [] ++ [p])
  ∧ ((lookupEP (applyAction s (.setPluginEnabled p a)).enabledPlugins a).getD []).count p
      = 1 := by
  refine ⟨?_, ?_, ?_⟩
  · show ({ s with enabledPlugins :=
        pluginsEnable (pluginsEnable s.enabledPlugins a p) a p } : State) =
      { s with enabledPlugins := pluginsEnable s.enabledPlugins a p }
    rw [pluginsEnable_idem]
  · exact lookupEP_pluginsEnable_self s.enabledPlugins a p
  · have h := lookupEP_pluginsEnable_self s.enabledPlugins a p
    show ((lookupEP (pluginsEnable s.enabledPlugins a p) a).getD []).count p = 1
    rw [h, Option.getD_some]
    by_cases hp : p ∈ (lookupEP s.enabledPlugins a).getD []
    · rw [if_pos hp]
      exact Nat.le_antisymm hcount (List.count_pos_iff.mpr hp)
    · rw [if_neg hp, List.count_append]
      rw [List.count_eq_zero_of_not_mem hp]
      simp

/-- Witness for C9 at a concrete input: enabling a plugin once and twice
from the initial state agree, with the entry `[p]` created. -/
theorem setPluginEnabled_idempotent_witness :
    ((lookupEP INITAL_STATE.enabledPlugins "appX").getD []).count "pluginY" ≤ 1 ∧
    (applyAction (applyAction INITAL_STATE (.setPluginEnabled "pluginY" "appX"))
        (.setPluginEnabled "pluginY" "appX") =
      applyAction INITAL_STATE (.setPluginEnabled "pluginY" "appX")) ∧
    ((lookupEP (applyAction INITAL_STATE
        (.setPluginEnabled "pluginY" "appX")).enabledPlugins "appX").getD []).count "pluginY"
      = 1 :=
  ⟨by decide,
    (setPluginEnabled_idempotent INITAL_STATE "pluginY" "appX" (by decide)).1,
    (setPluginEnabled_idempotent INITAL_STATE "pluginY" "appX" (by decide)).2.2⟩

theorem find?_eq_some_split {α : Type} (p : α → Bool) (l : List α) (a : α)
    (h : l.find? p = some a) :
    p a = true ∧ ∃ l1 l2, l = l1 ++ a :: l2 ∧ ∀ x ∈ l1, ¬ p x := by
  induction l with
  | nil => simp at h
  | cons x rest ih =>
    cases hpx : p x with
    | true =>
      rw [List.find?_cons, hpx] at h
      have hax : x = a := Option.some.inj h
      subst hax
      exact ⟨hpx, [], rest, rfl, by simp⟩
    | false =>
      rw [List.find?_cons, hpx] at h
      obtain ⟨hpa, l1, l2, hdec, hl1⟩ := ih h
      refine ⟨hpa, x :: l1, l2, by rw [hdec]; rfl, ?_⟩
      intro y hy
      rcases List.mem_cons.mp hy with rfl | hy'
      · simp [hpx]
      · exact hl1 y hy'

theorem metroPred_iff (d : BaseDevice) :
    (decide (d.os = "Metro") && !d.isArchived) = true ↔
      (d.os = "Metro" ∧ d.isArchived = false) := by
  simp

/-- C10: `getMetroDevice` returns the first non-archived device whose OS is
`Metro` (null if none), and `getActiveDevice` returns `selectedDevice` when
it differs from the metro device; when it equals the metro device it
returns the active client's owning device if an active client exists, and
`selectedDevice` otherwise. -/
theorem metro_active_device_selectors (s : State) :
    (getMetroDevice s = none ↔
      ∀ d ∈ s.devices, ¬(d.os = "Metro" ∧ d.isArchived = false))
  ∧ (∀ d, getMetroDevice s = some d →
      d.os = "Metro" ∧ d.isArchived = false ∧
      ∃ l1 l2, s.devices = l1 ++ d :: l2 ∧
        ∀ e ∈ l1, ¬(e.os = "Metro" ∧ e.isArchived = false))
  ∧ (s.selectedDevice ≠ getMetroDevice s → getActiveDevice s = s.selectedDevice)
  ∧ (s.selectedDevice = getMetroDevice s →
      (∀ c, getActiveClient s = some c → getActiveDevice s = some c.device)
    ∧ (getActiveClient s = none → getActiveDevice s = s.selectedDevice)) := by
  refine ⟨?_, ?_, ?_, ?_⟩
  · rw [getMetroDevice, List.find?_eq_none]
    constructor
    · intro h d hd hand
      exact h d hd ((metroPred_iff d).mpr hand)
    · intro h d hd hpred
      exact h d hd ((metroPred_iff d).mp hpred)
  · intro d hm
    obtain ⟨hpd, l1, l2, hdec, hl1⟩ := find?_eq_some_split _ _ _ hm
    obtain ⟨h1, h2⟩ := (metroPred_iff d).mp hpd
    exact ⟨h1, h2, l1, l2, hdec,
      fun e he hand => hl1 e he ((metroPred_iff e).mpr hand)⟩
  · intro hne
    rw [getActiveDevice, if_pos hne]
  · intro heq
    constructor
    · intro c hc
      rw [getActiveDevice, if_neg (not_not_intro heq), hc]
    · intro hnone
      rw [getActiveDevice, if_neg (not_not_intro heq), hnone]

/-- The concrete state of the C10 witness: a Metro device registered while
an Android device is selected. -/
def stateC10 : State :=
  { INITAL_STATE with devices := [devB], selectedDevice := some devA }

/-- Witness for C10 at a concrete input: the selected Android device is not
the metro device, so it is the active device. -/
theorem metro_active_device_selectors_witness :
    stateC10.selectedDevice ≠ getMetroDevice stateC10 ∧
    getActiveDevice stateC10 = some devA :=
  ⟨by decide, (metro_active_device_selectors stateC10).2.2.1 (by decide)⟩

end Flipper
